import Mathlib

/-!
Verification development for the `modules/api.py` file of the
ComfyUI-Autocomplete-Plus repository.

The Python module is shallowly embedded below:

* the data directory is an association list of `(filename, contents)` pairs
  (`DataDir`); `os.listdir` is the list of names in directory order and
  `os.path.exists` / reading a file are lookups in that list;
* the HTTP handlers become pure functions from the embedded filesystem and
  the (already URL-decoded) route parameters to a response value; handlers
  that can raise an uncaught Python exception return `Except PyExn _`;
* JSON documents are the inductive `Json`; Python dynamic-typing failures
  (`AttributeError`, `TypeError`, `KeyError`, ...) are modelled by the
  `PyExn` error type, mirroring which lines of the source can raise;
* the LoRA sidecar walk of `generate_lora_csv` is driven by an environment
  `LoraEnv` supplying the configured search paths, the `os.walk` result for
  each path, preview-image existence, and the parsed state of each sidecar;
  the float value of `"preferred weight"` is abstracted by its zero test and
  its Python string rendering (`PWeight`).
-/

namespace AutocompletePlus

/-! ### Constants of `api.py` -/

def DANBOORU : String := "danbooru"

def E621 : String := "e621"

def LORA : String := "lora"

def TAGS_SUFFIX : String := "tags"

def COOCCURRENCE_SUFFIX : String := "tags_cooccurrence"

/-- Canonical base filename `f"{prefix}_{TAGS_SUFFIX}.csv"`. -/
def baseTagsFile (src : String) : String := src ++ "_" ++ TAGS_SUFFIX ++ ".csv"

/-- Canonical base filename `f"{prefix}_{COOCCURRENCE_SUFFIX}.csv"`. -/
def baseCoocFile (src : String) : String := src ++ "_" ++ COOCCURRENCE_SUFFIX ++ ".csv"

/-! ### String primitives

Kernel-computable counterparts (by structural recursion over the character
list) of the Python string operations used in `api.py`: `startswith`,
`endswith`, the substring operator `in`, `str.lower` (the filenames and
patterns involved are ASCII), `os.path.splitext` and quote doubling. -/

/-- Boolean test that `pat` occurs at the very start of `s` (over char lists). -/
def matchesAt : List Char → List Char → Bool
  | [], _ => true
  | _ :: _, [] => false
  | a :: as, b :: bs => a == b && matchesAt as bs

/-- Boolean test that `pat` occurs somewhere inside `s` (over char lists). -/
def hasSubList (pat : List Char) : List Char → Bool
  | [] => matchesAt pat []
  | c :: rest => matchesAt pat (c :: rest) || hasSubList pat rest

/-- Python's substring operator `pat in s`. -/
def strContains (s pat : String) : Bool := hasSubList pat.data s.data

/-- Python's `s.startswith(pat)`. -/
def strStarts (s pat : String) : Bool := matchesAt pat.data s.data

/-- Python's `s.endswith(pat)`. -/
def strEnds (s pat : String) : Bool := matchesAt pat.data.reverse s.data.reverse

/-- ASCII lower-casing of one character. -/
def charLower (c : Char) : Char :=
  if 'A' ≤ c && c ≤ 'Z' then Char.ofNat (c.toNat + 32) else c

/-- Python's `s.lower()` (the scanned filenames are ASCII). -/
def strLower (s : String) : String := String.mk (s.data.map charLower)

/-- Drop the last `n` characters of `s`. -/
def strDropLast (s : String) (n : Nat) : String :=
  String.mk (s.data.take (s.data.length - n))

/-- Condition `COOCCURRENCE_SUFFIX in filename.lower()` from `get_csv_file_status`. -/
def coocMatch (filename : String) : Bool :=
  strContains (strLower filename) COOCCURRENCE_SUFFIX

/-- Condition `TAGS_SUFFIX in filename.lower()` from `get_csv_file_status`. -/
def tagsMatch (filename : String) : Bool :=
  strContains (strLower filename) TAGS_SUFFIX

/-! ### The data directory -/

/-- A Python exception escaping a modelled code path. -/
inductive PyExn where
  | ioError
  | jsonDecodeError
  | valueError
  | typeError
  | keyError
  | attrError
  | indexError
  deriving DecidableEq, Repr

instance {ε α : Type} [DecidableEq ε] [DecidableEq α] : DecidableEq (Except ε α) := fun x y =>
  match x, y with
  | .ok a, .ok b =>
    if h : a = b then .isTrue (by rw [h]) else .isFalse (by intro hh; cases hh; exact h rfl)
  | .error a, .error b =>
    if h : a = b then .isTrue (by rw [h]) else .isFalse (by intro hh; cases hh; exact h rfl)
  | .ok _, .error _ => .isFalse (by intro hh; cases hh)
  | .error _, .ok _ => .isFalse (by intro hh; cases hh)

/-- The `data` directory: filenames (in `os.listdir` order) with their contents. -/
structure DataDir where
  entries : List (String × String)
  deriving DecidableEq, Repr

/-- First-match association-list lookup, modelling a Python dict access. -/
def dictGet {α : Type} : List (String × α) → String → Option α
  | [], _ => none
  | (k, v) :: rest, key => if k = key then some v else dictGet rest key

/-- The result of `os.listdir(DATA_DIR)`. -/
def DataDir.listing (d : DataDir) : List String := d.entries.map Prod.fst

/-- Contents of a file of the data directory, `none` if absent. -/
def DataDir.read (d : DataDir) (name : String) : Option String :=
  dictGet d.entries name

/-- Test `os.path.exists(os.path.join(DATA_DIR, name))`. -/
def DataDir.hasFile (d : DataDir) (name : String) : Bool :=
  (d.read name).isSome

/-! ### Directory scanner (`get_csv_file_status`) -/

/-- The per-source status dictionary value built by `get_csv_file_status`. -/
structure SourceStatus where
  base_tags : Bool
  extra_tags : List String
  base_cooccurrence : Bool
  extra_cooccurrence : List String
  deriving DecidableEq, Repr

/-- The filter `[f for f in os.listdir(DATA_DIR) if f.startswith(prefix) and f.endswith(".csv")]`. -/
def allCsvFiles (d : DataDir) (src : String) : List String :=
  d.listing.filter (fun f => strStarts f src && strEnds f ".csv")

/-- The classification loop of `get_csv_file_status` over `all_csv_files`:
returns `(tags_extra_files, cooccurrence_extra_files)` in listing order.
Base filenames are skipped; the cooccurrence substring check comes first. -/
def scanLoop (bt bc : String) : List String → List String × List String
  | [] => ([], [])
  | f :: rest =>
    let r := scanLoop bt bc rest
    if f == bt || f == bc then r
    else if coocMatch f then (r.1, f :: r.2)
    else if tagsMatch f then (f :: r.1, r.2)
    else r

/-- The body of `get_csv_file_status` for one source prefix. -/
def scanSource (d : DataDir) (src : String) : SourceStatus :=
  { base_tags := d.hasFile (baseTagsFile src)
    extra_tags := (scanLoop (baseTagsFile src) (baseCoocFile src) (allCsvFiles d src)).1
    base_cooccurrence := d.hasFile (baseCoocFile src)
    extra_cooccurrence := (scanLoop (baseTagsFile src) (baseCoocFile src) (allCsvFiles d src)).2 }

/-- `get_csv_file_status`: statuses for the danbooru and e621 sources. -/
def get_csv_file_status (d : DataDir) : SourceStatus × SourceStatus :=
  (scanSource d DANBOORU, scanSource d E621)

/-- The files iterated by the classification loop past the base-file skip:
`all_csv_files` minus the two canonical base filenames (lines 52-57). -/
def candidateExtras (d : DataDir) (src : String) : List String :=
  (allCsvFiles d src).filter (fun f => !(f == baseTagsFile src || f == baseCoocFile src))

/-- Modelled from the spec wording for the candidate set (section 4.1 / C4):
files "whose names contain the source prefix and end in .csv", excluding the
two canonical base filenames.  Used only to compare against `candidateExtras`. -/
def specCandidateExtras (d : DataDir) (src : String) : List String :=
  d.listing.filter
    (fun f => strContains f src && strEnds f ".csv" &&
      !(f == baseTagsFile src || f == baseCoocFile src))

/-! ### Base-file fetch endpoint (`get_base_tags_file`) -/

/-- Response of a file-fetch endpoint: 200 with the file bytes, 400, or 404. -/
inductive FetchResp where
  | ok (content : String)
  | err400
  | err404
  deriving DecidableEq, Repr

/-- Handler `get_base_tags_file` for `GET /autocomplete-plus/csv/{source}/{suffix}/base`. -/
def get_base_tags_file (d : DataDir) (source suffix : String) : FetchResp :=
  if source ∉ [DANBOORU, E621, LORA] ∨ suffix ∉ [TAGS_SUFFIX, COOCCURRENCE_SUFFIX] then
    .err400
  else
    match d.read (source ++ "_" ++ suffix ++ ".csv") with
    | none => .err404
    | some c => .ok c

/-! ### Extra-file fetch endpoint (`get_extra_tags_file`)

The Python handler accesses `csv_file_status[source][f"extra_{suffix}"]` on a
per-source dict whose keys are `"base_tags"`, `"extra_tags"`,
`"base_cooccurrence"`, `"extra_cooccurrence"`; the lookup is modelled as a
string-keyed dictionary so a missing key raises `KeyError` as in Python. -/

/-- A value of the per-source status dict: a flag or a list of filenames. -/
inductive StatusVal where
  | flag (v : Bool)
  | names (v : List String)
  deriving DecidableEq, Repr

/-- The per-source Python dict built by `get_csv_file_status`, with its keys. -/
def statusDict (s : SourceStatus) : List (String × StatusVal) :=
  [("base_tags", .flag s.base_tags),
   ("extra_tags", .names s.extra_tags),
   ("base_cooccurrence", .flag s.base_cooccurrence),
   ("extra_cooccurrence", .names s.extra_cooccurrence)]

/-- Handler `get_extra_tags_file` for
`GET /autocomplete-plus/csv/{source}/{suffix}/extra/{index}`.

`index` is the result of `int(request.match_info["index"])`: `none` models the
`ValueError` of a malformed index, which the handler's `except ValueError`
turns into a 400.  Any other exception (notably the `KeyError` from the status
dict lookup) escapes the handler uncaught. -/
def get_extra_tags_file (d : DataDir) (source suffix : String) (index : Option Int) :
    Except PyExn FetchResp :=
  let status := get_csv_file_status d
  if source ∉ [DANBOORU, E621] ∨ suffix ∉ [TAGS_SUFFIX, COOCCURRENCE_SUFFIX] then
    .ok .err400
  else
    match index with
    | none => .ok .err400
    | some i =>
      let srcStatus := if source = DANBOORU then status.1 else status.2
      match dictGet (statusDict srcStatus) ("extra_" ++ suffix) with
      | none => .error .keyError
      | some (.flag _) => .error .typeError
      | some (.names lst) =>
        if i < 0 ∨ (lst.length : Int) ≤ i then .ok .err404
        else
          match d.read (lst.getD i.toNat "") with
          | none => .ok .err404
          | some c => .ok (.ok c)

/-! ### JSON values and the metadata reader -/

/-- A parsed JSON value (floats are not needed by the modelled code paths;
numbers are integers here, which suffices for the metadata document). -/
inductive Json where
  | obj (fields : List (String × Json))
  | arr (elems : List Json)
  | str (s : String)
  | num (n : Int)
  | bool (b : Bool)
  | null

/-- Python truthiness of a JSON value. -/
def pyTruthy : Json → Bool
  | .obj fields => !fields.isEmpty
  | .arr elems => !elems.isEmpty
  | .str s => !s.data.isEmpty
  | .num n => !(n = 0)
  | .bool b => b
  | .null => false

/-- Python `len`, defined on sized values only; `none` models `TypeError`. -/
def pyLen : Json → Option Nat
  | .obj fields => some fields.length
  | .arr elems => some elems.length
  | .str s => some s.data.length
  | _ => none

/-- Python `datasets[0]`: first element of a sequence; a dict raises `KeyError`
(its keys are JSON strings, not the integer 0), other values `TypeError`. -/
def pyIndex0 : Json → Except PyExn Json
  | .arr (x :: _) => .ok x
  | .arr [] => .error .indexError
  | .str s =>
    match s.data with
    | c :: _ => .ok (.str (String.mk [c]))
    | [] => .error .indexError
  | .obj _ => .error .keyError
  | _ => .error .typeError

/-- Lines 86-90 of `api.py` applied to the value of `"hf_datasets"`:
`if datasets and len(datasets) > 0: return datasets[0].get(...)` else `None`.
`.get` on a non-dict raises `AttributeError`. -/
def readDatasets (datasets : Json) : Except PyExn (Option Json) :=
  if pyTruthy datasets = false then .ok none
  else
    match pyLen datasets with
    | none => .error .typeError
    | some n =>
      if 0 < n then
        match pyIndex0 datasets with
        | .error e => .error e
        | .ok (.obj efields) => .ok (dictGet efields "last_remote_check_timestamp")
        | .ok _ => .error .attrError
      else .ok none

/-- `metadata.get("hf_datasets", [])` followed by `readDatasets`; the `.get`
call on a non-dict document raises `AttributeError`. -/
def readTimestampFromDoc : Json → Except PyExn (Option Json)
  | .obj fields => readDatasets ((dictGet fields "hf_datasets").getD (.arr []))
  | _ => .error .attrError

/-- The observable state of `csv_meta.json` when a handler runs. -/
inductive MetaFileState where
  | absent
  | unreadable
  | unparsable
  | parsed (doc : Json)

/-- `get_last_check_time_from_metadata`: the surrounding `try` catches exactly
`IOError` (unreadable file) and `json.JSONDecodeError` (unparsable file) and
returns `None` for them; exceptions raised while navigating the parsed
document are not of those classes and propagate to the caller. -/
def get_last_check_time_from_metadata : MetaFileState → Except PyExn (Option Json)
  | .absent => .ok none
  | .unreadable => .ok none
  | .unparsable => .ok none
  | .parsed doc => readTimestampFromDoc doc

/-- The metadata-file states on which `get_last_check_time_from_metadata`
completes without raising: any failure to open or parse, or a parsed object
whose `"hf_datasets"` value is either falsy, or an array headed by an object. -/
def metaSafe : MetaFileState → Bool
  | .parsed (.obj fields) =>
    match (dictGet fields "hf_datasets").getD (.arr []) with
    | .arr [] => true
    | .arr (.obj _ :: _) => true
    | .arr (_ :: _) => false
    | v => !pyTruthy v
  | .parsed _ => false
  | _ => true

/-- The value the metadata reader is specified to produce: the first dataset
record's `"last_remote_check_timestamp"` field, `none` in every other case. -/
def expectedTimestamp : MetaFileState → Option Json
  | .parsed (.obj fields) =>
    match (dictGet fields "hf_datasets").getD (.arr []) with
    | .arr (.obj efields :: _) => dictGet efields "last_remote_check_timestamp"
    | _ => none
  | _ => none

/-! ### Last-check-time endpoint (`get_last_check_time`) -/

/-- JSON response of the last-check-time endpoint. -/
structure LctResp where
  status : Nat
  last_check_time : Option Json
  message : Option String
  errorText : Option String

/-- Printable text of a caught exception, modelling `str(e)`. -/
def pyExnMsg : PyExn → String
  | .ioError => "IOError"
  | .jsonDecodeError => "JSONDecodeError"
  | .valueError => "ValueError"
  | .typeError => "TypeError"
  | .keyError => "KeyError"
  | .attrError => "AttributeError"
  | .indexError => "IndexError"

/-- Handler `get_last_check_time` for `GET /autocomplete-plus/csv/last-check-time`.
Its `try` block catches only `IOError` and `json.JSONDecodeError` (the 500
branch); anything else raised by the helper escapes uncaught. -/
def get_last_check_time (st : MetaFileState) : Except PyExn LctResp :=
  match st with
  | .absent => .ok ⟨200, none, some "csv_meta.json file not found", none⟩
  | _ =>
    match get_last_check_time_from_metadata st with
    | .ok (some ts) => .ok ⟨200, some ts, none, none⟩
    | .ok none => .ok ⟨200, none, some "No datasets found in metadata", none⟩
    | .error e =>
      if e = .ioError ∨ e = .jsonDecodeError then
        .ok ⟨500, none, none, some (pyExnMsg e)⟩
      else .error e

/-! ### LoRA CSV synthesizer (`generate_lora_csv`) -/

/-- The filesystem seen by the CSV writer: path to contents. -/
def FileSys : Type := String → Option String

/-- Overwriting write of `content` at `path` (Python `open(path, "w")` + write). -/
def FileSys.write (fs : FileSys) (path content : String) : FileSys :=
  fun p => if p = path then some content else fs p

/-- `os.path.join` for two POSIX path components. -/
def pjoin (a b : String) : String :=
  if strStarts b "/" then b
  else if a = "" || strEnds a "/" then a ++ b
  else a ++ "/" ++ b

/-- `os.path.splitext(file)[0]` for a filename already known to end in
`".json"`: drop the extension, unless every character before the final dot is
a dot (Python keeps leading dots with the stem, e.g. `".json"` has stem
`".json"`). -/
def jsonStem (file : String) : String :=
  if (strDropLast file 5).data.all (fun c => c == '.') then file else strDropLast file 5

/-- The `"preferred weight"` field as seen through `float(...)`:
absent (Python default `0`), convertible with its zero test and its string
rendering in the f-string, or inconvertible (the `float` call raises). -/
inductive PWeight where
  | absent
  | conv (isZero : Bool) (render : String)
  | inconv
  deriving DecidableEq, Repr

/-- The two fields of a parsed sidecar that `generate_lora_csv` reads. -/
structure SidecarData where
  activationText : Option String
  preferredWeight : PWeight
  deriving DecidableEq, Repr

/-- A sidecar file: either `json.load` raises, or it yields `SidecarData`. -/
inductive SidecarFile where
  | invalid
  | valid (data : SidecarData)
  deriving DecidableEq, Repr

/-- One output row: `(lora_name, activation words, preview img url)`. -/
def LoraRow : Type := String × String × String

/-- Environment of the LoRA walk: the configured search paths (from the
downloader's metadata), the `os.walk` triples of each existing path (`none`
when `os.path.exists` is false), preview-image existence, and the parsed
state of each JSON sidecar, both keyed by full path. -/
structure LoraEnv where
  config : List String
  walk : String → Option (List (String × List String))
  pngExists : String → Bool
  sidecar : String → SidecarFile

/-- Lines 117-139 of `api.py`: handle one `.json` file found under `root`. -/
def processFile (env : LoraEnv) (root file : String) : Except PyExn (Option LoraRow) :=
  let basename := jsonStem file
  let previewPath := pjoin root (basename ++ ".png")
  let preview_url := if env.pngExists previewPath then previewPath else ""
  match env.sidecar (pjoin root file) with
  | .invalid => .error .jsonDecodeError
  | .valid data =>
    match data.activationText with
    | none => .ok none
    | some t =>
      match data.preferredWeight with
      | .absent => .ok (some (basename, t, preview_url))
      | .conv true _ => .ok (some (basename, t, preview_url))
      | .conv false w =>
        .ok (some (basename, "<lora:" ++ basename ++ ":" ++ w ++ ">" ++ t, preview_url))
      | .inconv => .error .valueError

/-- The inner loop over the `.json` files of one walk triple, in order. -/
def processFiles (env : LoraEnv) (root : String) : List String → Except PyExn (List LoraRow)
  | [] => .ok []
  | f :: rest =>
    match processFile env root f with
    | .error e => .error e
    | .ok none => processFiles env root rest
    | .ok (some r) =>
      match processFiles env root rest with
      | .error e => .error e
      | .ok rs => .ok (r :: rs)

/-- The loop over the `os.walk` triples of one search path. -/
def processTriples (env : LoraEnv) : List (String × List String) → Except PyExn (List LoraRow)
  | [] => .ok []
  | (root, files) :: rest =>
    match processFiles env root (files.filter (fun f => strEnds f ".json")) with
    | .error e => .error e
    | .ok rs =>
      match processTriples env rest with
      | .error e => .error e
      | .ok rs2 => .ok (rs ++ rs2)

/-- The loop over the configured search paths; a missing path is skipped. -/
def processRoots (env : LoraEnv) : List String → Except PyExn (List LoraRow)
  | [] => .ok []
  | p :: rest =>
    match env.walk p with
    | none => processRoots env rest
    | some triples =>
      match processTriples env triples with
      | .error e => .error e
      | .ok rs =>
        match processRoots env rest with
        | .error e => .error e
        | .ok rs2 => .ok (rs ++ rs2)

/-- The complete `write_data` accumulation of `generate_lora_csv`. -/
def collectRows (env : LoraEnv) : Except PyExn (List LoraRow) :=
  processRoots env env.config

/-- Double every quote character, as `csv.writer` does inside a quoted field. -/
def dupQuotes : List Char → List Char
  | [] => []
  | c :: rest => if c == '"' then '"' :: '"' :: dupQuotes rest else c :: dupQuotes rest

/-- Quoting test of Python's `csv.writer` with the default dialect
(`QUOTE_MINIMAL`): quote when the field holds the delimiter, the quote
character, or a line-terminator character. -/
def csvNeedsQuote (s : String) : Bool :=
  s.data.any (fun c => c == ',' || c == '"' || c == '\r' || c == '\n')

/-- One CSV field as written by `csv.writer` (quotes doubled when quoting). -/
def csvField (s : String) : String :=
  if csvNeedsQuote s then "\"" ++ String.mk (dupQuotes s.data) ++ "\"" else s

/-- One CSV record of `writer.writerows` (default `\r\n` terminator). -/
def csvRow3 (r : LoraRow) : String :=
  csvField r.1 ++ "," ++ csvField r.2.1 ++ "," ++ csvField r.2.2 ++ "\r\n"

/-- The bytes `writer.writerows(write_data)` places in the file (no header). -/
def csvRender (rows : List LoraRow) : String :=
  String.join (rows.map csvRow3)

/-- `generate_lora_csv(filename)`: `(.ok False, fs)` when no search path is
configured (nothing written); otherwise walk all paths and overwrite
`filename` with the rendered rows and return `True`.  An exception raised
during the walk propagates before the file is opened for writing, so the
filesystem is returned unchanged in the error case. -/
def generate_lora_csv (env : LoraEnv) (fs : FileSys) (filename : String) :
    Except PyExn Bool × FileSys :=
  if env.config = [] then (.ok false, fs)
  else
    match collectRows env with
    | .error e => (.error e, fs)
    | .ok rows => (.ok true, fs.write filename (csvRender rows))

/-! ### Status-listing endpoint (`get_csv_list`) -/

/-- JSON response of `GET /autocomplete-plus/csv`.  `lora = some true` models
the presence of the `"lora": {"base_tags": true}` entry; `none` models the
key being absent from the response object. -/
structure CsvListResp where
  danbooru : SourceStatus
  e621 : SourceStatus
  lora : Option Bool
  deriving DecidableEq, Repr

/-- The fixed output path `os.path.join(DATA_DIR, f"{LORA_PREFIX}_{TAGS_SUFFIX}.csv")`. -/
def loraTarget (dataDir : String) : String :=
  pjoin dataDir (LORA ++ "_" ++ TAGS_SUFFIX ++ ".csv")

/-- Handler `get_csv_list` for `GET /autocomplete-plus/csv`: scan the data
directory, then regenerate the LoRA CSV; the handler has no `try`, so an
exception from `generate_lora_csv` fails the whole request. -/
def get_csv_list (d : DataDir) (env : LoraEnv) (fs : FileSys) (dataDir : String) :
    Except PyExn CsvListResp × FileSys :=
  let status := get_csv_file_status d
  match generate_lora_csv env fs (loraTarget dataDir) with
  | (.ok b, fs2) =>
    (.ok { danbooru := status.1, e621 := status.2, lora := if b then some true else none }, fs2)
  | (.error e, fs2) => (.error e, fs2)

/-! ### Concrete inputs used by witnesses and counterexamples -/

/-- Data directory of the C1 witness: one base danbooru tags file. -/
def dW : DataDir := ⟨[("danbooru_tags.csv", "1girl,100")]⟩

/-- Data directory holding one extra tags file and one extra cooccurrence file
for danbooru. -/
def dEx : DataDir :=
  ⟨[("danbooru_tags_2.csv", "extra-tags-content"),
    ("danbooru_tags_cooccurrence_2.csv", "extra-cooc-content")]⟩

/-- Data directory whose only file contains, but does not start with, the
danbooru source prefix. -/
def dC4 : DataDir := ⟨[("x_danbooru_tags.csv", "t")]⟩

/-- An empty data directory. -/
def dEmpty : DataDir := ⟨[]⟩

/-- An empty filesystem for the LoRA CSV writer. -/
def fsEmpty : FileSys := fun _ => none

/-- A target path for the generated LoRA CSV. -/
def tgtPath : String := "/data/lora_tags.csv"

/-- LoRA environment with no configured search path. -/
def envEmptyCfg : LoraEnv :=
  { config := [], walk := fun _ => none, pngExists := fun _ => false,
    sidecar := fun _ => .invalid }

/-- LoRA environment whose single sidecar fails to parse (`json.load` raises). -/
def envBadJson : LoraEnv :=
  { config := ["/loras"]
    walk := fun p => if p = "/loras" then some [("/loras", ["bad.json"])] else none
    pngExists := fun _ => false
    sidecar := fun _ => .invalid }

/-- LoRA environment whose single sidecar has an inconvertible
`"preferred weight"` value (the `float` call raises). -/
def envBadWeight : LoraEnv :=
  { config := ["/loras"]
    walk := fun p => if p = "/loras" then some [("/loras", ["bad.json"])] else none
    pngExists := fun _ => false
    sidecar := fun _ => .valid ⟨some "tag", .inconv⟩ }

/-- LoRA environment whose single sidecar lacks `"activation text"`. -/
def envNoAct : LoraEnv :=
  { config := ["/loras"]
    walk := fun p => if p = "/loras" then some [("/loras", ["a.json"])] else none
    pngExists := fun _ => false
    sidecar := fun _ => .valid ⟨none, .absent⟩ }

/-- LoRA environment for the spec's `foo.json` example with `"preferred
weight": 0.8` and a sibling `foo.png`. -/
def envFoo : LoraEnv :=
  { config := ["/loras"]
    walk := fun p => if p = "/loras" then some [("/loras", ["foo.json", "foo.png"])] else none
    pngExists := fun p => p == "/loras/foo.png"
    sidecar := fun p =>
      if p = "/loras/foo.json" then .valid ⟨some "foo tag", .conv false "0.8"⟩ else .invalid }

/-- A well-formed metadata document with one dataset record. -/
def metaDocEx : Json :=
  .obj [("hf_datasets",
    .arr [.obj [("last_remote_check_timestamp", .str "2025-06-01T12:00:00")]])]

/-! ### Supporting lemmas -/

/-- The classification loop computes two filters of its input list: filenames
that are not base files and match the cooccurrence substring, and filenames
that are not base files, miss the cooccurrence substring and match the tags
substring. -/
theorem scanLoop_eq (bt bc : String) (l : List String) :
    scanLoop bt bc l =
      (l.filter (fun f => !(f == bt || f == bc) && (!coocMatch f && tagsMatch f)),
       l.filter (fun f => !(f == bt || f == bc) && coocMatch f)) := by
  induction l with
  | nil => rfl
  | cons f rest ih =>
    simp only [scanLoop, ih, List.filter_cons]
    cases hb : (f == bt || f == bc) <;> cases hc : coocMatch f <;> cases ht : tagsMatch f <;>
      simp [hb, hc, ht]

/-- Every exception of `readDatasets` is a dynamic-typing error, never one of
the two classes the callers catch. -/
theorem readDatasets_errors (v : Json) (e : PyExn) (h : readDatasets v = .error e) :
    e ≠ .ioError ∧ e ≠ .jsonDecodeError := by
  cases v with
  | obj fields =>
    cases fields with
    | nil => simp [readDatasets, pyTruthy] at h
    | cons x tl =>
      simp [readDatasets, pyTruthy, pyLen, pyIndex0] at h
      subst h
      exact ⟨by decide, by decide⟩
  | arr elems =>
    cases elems with
    | nil => simp [readDatasets, pyTruthy] at h
    | cons x tl =>
      cases x <;> simp [readDatasets, pyTruthy, pyLen, pyIndex0] at h <;>
        (subst h; exact ⟨by decide, by decide⟩)
  | str s =>
    cases s with
    | mk data =>
      cases data with
      | nil => simp [readDatasets, pyTruthy] at h
      | cons c cs =>
        simp [readDatasets, pyTruthy, pyLen, pyIndex0] at h
        subst h
        exact ⟨by decide, by decide⟩
  | num n =>
    by_cases hn : n = 0
    · simp [readDatasets, pyTruthy, hn] at h
    · simp [readDatasets, pyTruthy, pyLen, hn] at h
      subst h
      exact ⟨by decide, by decide⟩
  | bool b =>
    cases b with
    | false => simp [readDatasets, pyTruthy] at h
    | true =>
      simp [readDatasets, pyTruthy, pyLen] at h
      subst h
      exact ⟨by decide, by decide⟩
  | null => simp [readDatasets, pyTruthy] at h

/-- The metadata reader never raises `IOError` or `JSONDecodeError` to its
caller: it catches exactly those two classes itself. -/
theorem meta_reader_errors (st : MetaFileState) (e : PyExn)
    (h : get_last_check_time_from_metadata st = .error e) :
    e ≠ .ioError ∧ e ≠ .jsonDecodeError := by
  cases st with
  | absent => simp [get_last_check_time_from_metadata] at h
  | unreadable => simp [get_last_check_time_from_metadata] at h
  | unparsable => simp [get_last_check_time_from_metadata] at h
  | parsed doc =>
    cases doc with
    | obj fields =>
      exact readDatasets_errors _ e h
    | arr es =>
      simp [get_last_check_time_from_metadata, readTimestampFromDoc] at h
      subst h; exact ⟨by decide, by decide⟩
    | str s =>
      simp [get_last_check_time_from_metadata, readTimestampFromDoc] at h
      subst h; exact ⟨by decide, by decide⟩
    | num n =>
      simp [get_last_check_time_from_metadata, readTimestampFromDoc] at h
      subst h; exact ⟨by decide, by decide⟩
    | bool b =>
      simp [get_last_check_time_from_metadata, readTimestampFromDoc] at h
      subst h; exact ⟨by decide, by decide⟩
    | null =>
      simp [get_last_check_time_from_metadata, readTimestampFromDoc] at h
      subst h; exact ⟨by decide, by decide⟩

/-- Unfolding of the last-check-time handler on a parsed metadata file. -/
theorem glct_parsed (doc : Json) :
    get_last_check_time (.parsed doc) =
      match get_last_check_time_from_metadata (.parsed doc) with
      | .ok (some ts) => .ok ⟨200, some ts, none, none⟩
      | .ok none => .ok ⟨200, none, some "No datasets found in metadata", none⟩
      | .error e =>
        if e = .ioError ∨ e = .jsonDecodeError then
          .ok ⟨500, none, none, some (pyExnMsg e)⟩
        else .error e := rfl

/-! ### Claim theorems -/

/-- Claim C1: for the base-file fetch endpoint, a source or suffix outside the
allowed sets yields 400; for every valid source and suffix the response is 404
iff the file `{source}_{suffix}.csv` is absent from the data directory, and
otherwise 200 with bytes equal to that file's contents. -/
theorem c1_base_fetch (d : DataDir) (source suffix : String) :
    (source ∉ [DANBOORU, E621, LORA] ∨ suffix ∉ [TAGS_SUFFIX, COOCCURRENCE_SUFFIX] →
      get_base_tags_file d source suffix = .err400) ∧
    (source ∈ [DANBOORU, E621, LORA] → suffix ∈ [TAGS_SUFFIX, COOCCURRENCE_SUFFIX] →
      (get_base_tags_file d source suffix = .err404 ↔
        d.read (source ++ "_" ++ suffix ++ ".csv") = none) ∧
      (∀ c, d.read (source ++ "_" ++ suffix ++ ".csv") = some c →
        get_base_tags_file d source suffix = .ok c)) := by
  constructor
  · intro h
    unfold get_base_tags_file
    rw [if_pos h]
  · intro hs hx
    have hcond : ¬(source ∉ [DANBOORU, E621, LORA] ∨
        suffix ∉ [TAGS_SUFFIX, COOCCURRENCE_SUFFIX]) := by tauto
    constructor
    · rcases hr : d.read (source ++ "_" ++ suffix ++ ".csv") with _ | c <;>
        · unfold get_base_tags_file
          rw [if_neg hcond, hr]
          simp
    · intro c hc
      unfold get_base_tags_file
      rw [if_neg hcond, hc]

/-- Witness for C1: on a directory holding `danbooru_tags.csv`, the fetch of
source danbooru / suffix tags returns 200 with the file's contents. -/
theorem c1_base_fetch_witness :
    get_base_tags_file dW "danbooru" "tags" = .ok "1girl,100" :=
  ((c1_base_fetch dW "danbooru" "tags").2 (by decide) (by decide)).2 "1girl,100" (by decide)

/-- Claim C2 (evaluation at the failing input): on a directory whose scan
yields one extra cooccurrence file, the extra-file fetch with suffix
`tags_cooccurrence` and in-range index 0 raises `KeyError` (the handler looks
up the non-existent status key `extra_tags_cooccurrence`) instead of serving
the file; the rest of the claimed behaviour (suffix `tags` served by index,
malformed index 400, out-of-range 404, source `lora` 400, bad suffix 400)
holds on the same directory. -/
theorem c2_extra_cooc_keyerror :
    get_extra_tags_file dEx "danbooru" "tags_cooccurrence" (some 0) = .error .keyError ∧
    (get_csv_file_status dEx).1.extra_cooccurrence = ["danbooru_tags_cooccurrence_2.csv"] ∧
    get_extra_tags_file dEx "danbooru" "tags" (some 0) = .ok (.ok "extra-tags-content") ∧
    get_extra_tags_file dEx "danbooru" "tags" none = .ok .err400 ∧
    get_extra_tags_file dEx "danbooru" "tags" (some (-1)) = .ok .err404 ∧
    get_extra_tags_file dEx "danbooru" "tags" (some 5) = .ok .err404 ∧
    get_extra_tags_file dEx "lora" "tags" (some 0) = .ok .err400 ∧
    get_extra_tags_file dEx "danbooru" "bad" (some 0) = .ok .err400 := by
  decide

/-- Claim C3: a candidate extra filename (not one of the two canonical base
filenames) is classified into the cooccurrence list exactly when its
lowercased name contains `tags_cooccurrence`; otherwise into the tags list
exactly when its lowercased name contains `tags`; a file matching neither is
in neither list. -/
theorem c3_classify (d : DataDir) (src f : String)
    (h1 : f ≠ baseTagsFile src) (h2 : f ≠ baseCoocFile src) :
    (f ∈ (scanSource d src).extra_cooccurrence ↔
      f ∈ allCsvFiles d src ∧ coocMatch f = true) ∧
    (f ∈ (scanSource d src).extra_tags ↔
      f ∈ allCsvFiles d src ∧ coocMatch f = false ∧ tagsMatch f = true) ∧
    (coocMatch f = false → tagsMatch f = false →
      f ∉ (scanSource d src).extra_cooccurrence ∧ f ∉ (scanSource d src).extra_tags) := by
  have hs := scanLoop_eq (baseTagsFile src) (baseCoocFile src) (allCsvFiles d src)
  have hb : (f == baseTagsFile src || f == baseCoocFile src) = false := by
    simp [h1, h2]
  refine ⟨?_, ?_, ?_⟩
  · simp [scanSource, hs, List.mem_filter, hb]
    tauto
  · simp [scanSource, hs, List.mem_filter, hb]
    tauto
  · intro hc ht
    simp [scanSource, hs, List.mem_filter, hb, hc, ht]

/-- Witness for C3: the non-base file `danbooru_tags_cooccurrence_2.csv` lands
in the cooccurrence list (even though it also contains `tags`). -/
theorem c3_classify_witness :
    "danbooru_tags_cooccurrence_2.csv" ∈ (scanSource dEx DANBOORU).extra_cooccurrence :=
  ((c3_classify dEx DANBOORU "danbooru_tags_cooccurrence_2.csv"
    (by decide) (by decide)).1).mpr (by decide)

/-- Counterexample for C4: on a directory holding `x_danbooru_tags.csv` (which
contains but does not start with the source prefix), the scanner's candidate
set differs from the claim's contains-based description. -/
theorem c4_counter : candidateExtras dC4 DANBOORU ≠ specCandidateExtras dC4 DANBOORU := by
  decide

/-- Claim C4 (amended): the candidate extra files are exactly the files of the
data directory whose names START WITH the source prefix (not merely contain
it) and end in `.csv`, minus the two canonical base filenames. -/
theorem c4_candidates (d : DataDir) (src f : String) :
    f ∈ candidateExtras d src ↔
      f ∈ d.listing ∧ strStarts f src = true ∧ strEnds f ".csv" = true ∧
        f ≠ baseTagsFile src ∧ f ≠ baseCoocFile src := by
  simp [candidateExtras, allCsvFiles, List.mem_filter]
  tauto

/-- Witness for C4: `danbooru_tags_2.csv` is a candidate extra file of `dEx`. -/
theorem c4_candidates_witness :
    "danbooru_tags_2.csv" ∈ candidateExtras dEx DANBOORU :=
  (c4_candidates dEx DANBOORU "danbooru_tags_2.csv").mpr (by decide)

/-- Counterexample for C5: a non-empty configuration whose traversal hits an
unparsable sidecar makes `generate_lora_csv` raise instead of returning true
and overwriting the target; the filesystem is unchanged. -/
theorem c5_counter :
    generate_lora_csv envBadJson fsEmpty tgtPath = (.error .jsonDecodeError, fsEmpty) ∧
    envBadJson.config ≠ [] :=
  ⟨rfl, by decide⟩

/-- Claim C5 (amended): with an empty search-path configuration the
synthesizer returns false and writes nothing; with a non-empty configuration
whose traversal completes without raising it returns true and overwrites the
target with the rendered rows (no header row), an empty file when there are
zero rows; the write replaces any previous contents at the target path. -/
theorem c5_lora_generate :
    (∀ (env : LoraEnv) (fs : FileSys) (target : String), env.config = [] →
      generate_lora_csv env fs target = (.ok false, fs)) ∧
    (∀ (env : LoraEnv) (fs : FileSys) (target : String) (rows : List LoraRow),
      env.config ≠ [] → collectRows env = .ok rows →
      generate_lora_csv env fs target = (.ok true, fs.write target (csvRender rows))) ∧
    csvRender [] = "" ∧
    (∀ (fs : FileSys) (target content : String),
      fs.write target content target = some content) := by
  refine ⟨?_, ?_, rfl, ?_⟩
  · intro env fs target h
    unfold generate_lora_csv
    rw [if_pos h]
  · intro env fs target rows h hr
    unfold generate_lora_csv
    rw [if_neg h, hr]
  · intro fs target content
    unfold FileSys.write
    simp

/-- Witness for C5 (amended): the empty configuration returns false leaving
the filesystem untouched; a configuration producing zero rows returns true
and writes the empty rendering. -/
theorem c5_lora_generate_witness :
    generate_lora_csv envEmptyCfg fsEmpty "/t" = (.ok false, fsEmpty) ∧
    generate_lora_csv envNoAct fsEmpty "/t" = (.ok true, fsEmpty.write "/t" (csvRender [])) :=
  ⟨c5_lora_generate.1 envEmptyCfg fsEmpty "/t" rfl,
   c5_lora_generate.2.1 envNoAct fsEmpty "/t" [] (by decide) rfl⟩

/-- Claim C6: a sidecar without `"activation text"` contributes no row; one
with a non-zero `"preferred weight"` contributes a row whose activation text
is prefixed with the weight-annotated marker; one with zero or absent weight
contributes the text unprefixed; the preview field is the sibling `.png` path
when that file exists and the empty string otherwise. -/
theorem c6_sidecar_rows (env : LoraEnv) (root file : String) :
    (∀ w, env.sidecar (pjoin root file) = .valid ⟨none, w⟩ →
      processFile env root file = .ok none) ∧
    (∀ t r, env.sidecar (pjoin root file) = .valid ⟨some t, .conv false r⟩ →
      processFile env root file =
        .ok (some (jsonStem file,
          "<lora:" ++ jsonStem file ++ ":" ++ r ++ ">" ++ t,
          if env.pngExists (pjoin root (jsonStem file ++ ".png")) then
            pjoin root (jsonStem file ++ ".png") else ""))) ∧
    (∀ t r, env.sidecar (pjoin root file) = .valid ⟨some t, .conv true r⟩ →
      processFile env root file =
        .ok (some (jsonStem file, t,
          if env.pngExists (pjoin root (jsonStem file ++ ".png")) then
            pjoin root (jsonStem file ++ ".png") else ""))) ∧
    (∀ t, env.sidecar (pjoin root file) = .valid ⟨some t, .absent⟩ →
      processFile env root file =
        .ok (some (jsonStem file, t,
          if env.pngExists (pjoin root (jsonStem file ++ ".png")) then
            pjoin root (jsonStem file ++ ".png") else ""))) := by
  refine ⟨?_, ?_, ?_, ?_⟩
  · intro w h
    simp [processFile, h]
  · intro t r h
    simp [processFile, h]
  · intro t r h
    simp [processFile, h]
  · intro t h
    simp [processFile, h]

/-- Witness for C6: the spec's `foo.json` example yields the row
`("foo", "<lora:foo:0.8>foo tag", "/loras/foo.png")`. -/
theorem c6_sidecar_rows_witness :
    processFile envFoo "/loras" "foo.json" =
      .ok (some ("foo", "<lora:foo:0.8>foo tag", "/loras/foo.png")) :=
  (c6_sidecar_rows envFoo "/loras" "foo.json").2.1 "foo tag" "0.8" rfl

/-- Claim C7: whenever the status-listing handler produces a response, the
`lora` key is present (mapped to base-tags true) iff the synthesizer returned
true, absent when it returned false, and the danbooru and e621 entries carry
exactly the scanner's four fields. -/
theorem c7_csv_list (d : DataDir) (env : LoraEnv) (fs : FileSys) (dataDir : String)
    (r : CsvListResp) (fs2 : FileSys)
    (h : get_csv_list d env fs dataDir = (.ok r, fs2)) :
    (r.lora = some true ↔ (generate_lora_csv env fs (loraTarget dataDir)).1 = .ok true) ∧
    ((generate_lora_csv env fs (loraTarget dataDir)).1 = .ok false → r.lora = none) ∧
    r.danbooru = (get_csv_file_status d).1 ∧ r.e621 = (get_csv_file_status d).2 := by
  rcases hg : generate_lora_csv env fs (loraTarget dataDir) with ⟨eb, f2⟩
  unfold get_csv_list at h
  rw [hg] at h
  cases eb with
  | ok b =>
    simp only [Prod.mk.injEq, Except.ok.injEq] at h
    obtain ⟨h1, h2⟩ := h
    subst h1
    cases b <;> simp
  | error e => simp at h

/-- Witness for C7: on an empty directory with a successfully synthesizing
environment, the response carries the lora entry. -/
theorem c7_csv_list_witness :
    (⟨⟨false, [], false, []⟩, ⟨false, [], false, []⟩, some true⟩ : CsvListResp).lora
      = some true :=
  (c7_csv_list dEmpty envNoAct fsEmpty "/data"
    ⟨⟨false, [], false, []⟩, ⟨false, [], false, []⟩, some true⟩
    (fsEmpty.write (loraTarget "/data") "") rfl).1.mpr rfl

/-- Counterexample for C8: a metadata file whose JSON parses to a top-level
array makes the reader raise `AttributeError` (uncaught), contradicting the
claim that it never raises for any JSON content. -/
theorem c8_counter :
    get_last_check_time_from_metadata (.parsed (.arr [])) = .error .attrError := rfl

/-- Claim C8 (amended): the metadata reader returns the first dataset record's
last-check timestamp or none, without raising, for an absent, unreadable or
unparsable file and for every parsed document that is a JSON object whose
`hf_datasets` value is falsy or an array headed by an object; for other JSON
shapes it raises an uncaught dynamic-typing exception. -/
theorem c8_meta_reader (st : MetaFileState) (h : metaSafe st = true) :
    get_last_check_time_from_metadata st = .ok (expectedTimestamp st) := by
  cases st with
  | absent => rfl
  | unreadable => rfl
  | unparsable => rfl
  | parsed doc =>
    cases doc with
    | obj fields =>
      simp only [get_last_check_time_from_metadata, readTimestampFromDoc,
        expectedTimestamp, metaSafe] at h ⊢
      rcases hv : (dictGet fields "hf_datasets").getD (.arr []) with
        fs2 | es | s | n | b
      case obj =>
        rw [hv] at h
        cases fs2 with
        | nil => simp [readDatasets, pyTruthy]
        | cons x tl => simp [pyTruthy] at h
      case arr =>
        rw [hv] at h
        cases es with
        | nil => simp [readDatasets, pyTruthy]
        | cons x tl =>
          cases x <;> simp at h
          simp [readDatasets, pyTruthy, pyLen, pyIndex0]
      case str =>
        rw [hv] at h
        cases s with
        | mk data =>
          cases data with
          | nil => simp [readDatasets, pyTruthy]
          | cons c cs => simp [pyTruthy] at h
      case num =>
        rw [hv] at h
        by_cases hn : n = 0
        · simp [readDatasets, pyTruthy, hn]
        · simp [pyTruthy, hn] at h
      case bool =>
        rw [hv] at h
        cases b with
        | false => simp [readDatasets, pyTruthy]
        | true => simp [pyTruthy] at h
      case null =>
        rw [hv] at h
        simp [readDatasets, pyTruthy]
    | arr es => simp [metaSafe] at h
    | str s => simp [metaSafe] at h
    | num n => simp [metaSafe] at h
    | bool b => simp [metaSafe] at h
    | null => simp [metaSafe] at h

/-- Witness for C8 (amended): a well-formed metadata document yields its
timestamp. -/
theorem c8_meta_reader_witness :
    get_last_check_time_from_metadata (.parsed metaDocEx)
      = .ok (some (.str "2025-06-01T12:00:00")) :=
  c8_meta_reader (.parsed metaDocEx) rfl

/-- Counterexample for C9: an unparsable metadata file produces a 200 response
with a null timestamp and the no-datasets message, not the claimed 500
response with an error field. -/
theorem c9_counter :
    get_last_check_time .unparsable =
      .ok ⟨200, none, some "No datasets found in metadata", none⟩ := rfl

/-- Claim C9 (amended): the endpoint returns 200 with a null timestamp and the
file-not-found message when the metadata file is absent; read and parse
failures are absorbed by the metadata reader and also yield 200 with a null
timestamp and the no-datasets message; every response the handler produces has
status 200, the 500 error branch being unreachable. -/
theorem c9_last_check :
    get_last_check_time .absent =
      .ok ⟨200, none, some "csv_meta.json file not found", none⟩ ∧
    get_last_check_time .unreadable =
      .ok ⟨200, none, some "No datasets found in metadata", none⟩ ∧
    get_last_check_time .unparsable =
      .ok ⟨200, none, some "No datasets found in metadata", none⟩ ∧
    (∀ (st : MetaFileState) (r : LctResp),
      get_last_check_time st = .ok r → r.status = 200) := by
  refine ⟨rfl, rfl, rfl, ?_⟩
  intro st r h
  cases st with
  | absent =>
    simp only [get_last_check_time, Except.ok.injEq] at h
    subst h; rfl
  | unreadable =>
    simp only [get_last_check_time, get_last_check_time_from_metadata,
      Except.ok.injEq] at h
    subst h; rfl
  | unparsable =>
    simp only [get_last_check_time, get_last_check_time_from_metadata,
      Except.ok.injEq] at h
    subst h; rfl
  | parsed doc =>
    rw [glct_parsed] at h
    rcases hm : get_last_check_time_from_metadata (.parsed doc) with e | v
    · rw [hm] at h
      have h2 : (if e = PyExn.ioError ∨ e = PyExn.jsonDecodeError then
          Except.ok (⟨500, none, none, some (pyExnMsg e)⟩ : LctResp)
        else Except.error e) = Except.ok r := h
      have he := meta_reader_errors _ e hm
      rw [if_neg (by tauto)] at h2
      cases h2
    · rw [hm] at h
      rcases v with _ | ts
      · have h2 : Except.ok
            (⟨200, none, some "No datasets found in metadata", none⟩ : LctResp)
            = Except.ok r := h
        cases h2
        rfl
      · have h2 : Except.ok (⟨200, some ts, none, none⟩ : LctResp) = Except.ok r := h
        cases h2
        rfl

/-- Witness for C9 (amended): the absent-file response has status 200. -/
theorem c9_last_check_witness :
    (⟨200, none, some "csv_meta.json file not found", none⟩ : LctResp).status = 200 :=
  c9_last_check.2.2.2 .absent _ rfl

/-- Claim C10: skip-with-warning tolerance covers only sidecars missing the
activation-text field; an unparsable sidecar or an inconvertible preferred
weight makes `generate_lora_csv` raise with the filesystem untouched, and the
exception propagates out of the status-listing handler, while a sidecar
lacking activation text is skipped and synthesis still succeeds. -/
theorem c10_lora_exception_paths :
    (generate_lora_csv envBadJson fsEmpty tgtPath).1 = .error .jsonDecodeError ∧
    (generate_lora_csv envBadJson fsEmpty tgtPath).2 = fsEmpty ∧
    (generate_lora_csv envBadWeight fsEmpty tgtPath).1 = .error .valueError ∧
    (generate_lora_csv envBadWeight fsEmpty tgtPath).2 = fsEmpty ∧
    (get_csv_list dEmpty envBadJson fsEmpty "/data").1 = .error .jsonDecodeError ∧
    generate_lora_csv envNoAct fsEmpty tgtPath = (.ok true, fsEmpty.write tgtPath "") :=
  ⟨rfl, rfl, rfl, rfl, rfl, rfl⟩

end AutocompletePlus
